import Mathlib

/-
Verification of the EnterFix-for-ChatGPT browser extension.

The repository remaps which Enter-key chord sends a message versus inserts a
newline inside ChatGPT's ProseMirror editor.  Its sources are shallowly
embedded below:

* `KeySwap`   – the first (guard-flag) script in the unnamed main file:
  `isKeyMatch`, `createFakeEvent`, the keydown handler installed by
  `attachKeyHandler`, `removeExistingHandler`, the `SETTINGS_UPDATED`
  message listener, and `loadSettings`.
* `KeySwapB`  – the second (legacy) script concatenated in the same file:
  same function names, but no fake-event guard flag, no Ctrl+Enter case,
  and single-editor (`querySelector`) attachment.
* `EnterFix`  – `content.js`, the settings-free remapper.
* `Popup`     – the popup half of `background.js`: `handleDuplicateKeys`
  and `handleSettingChange`.
* `Background` – the `chrome.runtime.onInstalled` listener of
  `background.js`.

Keyboard events are modelled by their fields read by the code (`key`,
`shiftKey`, `altKey`, `ctrlKey`, `metaKey`); DOM side effects of one handler
invocation (preventDefault, stopImmediatePropagation, clicking the send
button, scheduling a synthetic keydown dispatch, raising the guard flag) are
collected in a `HandlerOutcome` record.  The send-button lookup
`document.querySelector(a) || document.querySelector(b) || document.querySelector(c)`
is modelled by a `DomEnv` holding the three query results.
-/

/-- A keyboard event, restricted to the fields the extension reads. -/
structure KeyEvent where
  key : String
  shiftKey : Bool
  altKey : Bool
  ctrlKey : Bool
  metaKey : Bool
deriving DecidableEq, Repr

/-- The two persisted preferences.  In the source these are plain strings
drawn from {Enter, Shift+Enter, Alt+Enter, Ctrl+Enter}. -/
structure Settings where
  sendAction : String
  newlineAction : String
deriving DecidableEq, Repr

/-- `DEFAULT_SETTINGS` of the guard-flag script, of `background.js` and of
the popup script (all three declare the same object). -/
def DEFAULT_SETTINGS : Settings :=
  { sendAction := "Enter", newlineAction := "Shift+Enter" }

/-- The send-trigger button as far as the code inspects it (`.disabled`). -/
structure SendButton where
  disabled : Bool
deriving DecidableEq, Repr

/-- Results of the three prioritized `document.querySelector` calls used to
locate the send button: `[data-testid="send-button"]`, then
`button[aria-label="Send message"]`, then `.absolute.md\:bottom-3 button`. -/
structure DomEnv where
  byTestId : Option SendButton
  byAriaLabel : Option SendButton
  structuralFallback : Option SendButton
deriving DecidableEq, Repr

/-- `document.querySelector(p1) || document.querySelector(p2) || document.querySelector(p3)`:
the first non-null result, if any. -/
def querySendButton (env : DomEnv) : Option SendButton :=
  (env.byTestId.orElse fun _ => env.byAriaLabel).orElse fun _ => env.structuralFallback

/-- `sendButton && !sendButton.disabled`. -/
def sendButtonClickable (env : DomEnv) : Bool :=
  match querySendButton env with
  | some b => !b.disabled
  | none => false

/-- Observable side effects of one invocation of an installed keydown
handler: whether `event.preventDefault()` and
`event.stopImmediatePropagation()` were called, whether the send button was
clicked, which synthetic keydown (if any) was scheduled for dispatch on the
event target, and whether the fake-event guard flag was raised. -/
structure HandlerOutcome where
  prevented : Bool
  stoppedImmediate : Bool
  clickedSend : Bool
  dispatchedFake : Option KeyEvent
  raisedGuard : Bool
deriving DecidableEq, Repr

/-- The handler returned without touching the event: no side effect at all. -/
def HandlerOutcome.pass : HandlerOutcome :=
  { prevented := false, stoppedImmediate := false, clickedSend := false,
    dispatchedFake := none, raisedGuard := false }

namespace KeySwap

/-- `isKeyMatch(event, action)` of the guard-flag script: the event's key
must be the literal Enter and the switch on the action name requires the
exact modifier combination, with metaKey always required false. -/
def isKeyMatch (event : KeyEvent) (action : String) : Bool :=
  if event.key ≠ "Enter" then false
  else if action = "Enter" then
    !event.shiftKey && !event.altKey && !event.ctrlKey && !event.metaKey
  else if action = "Shift+Enter" then
    event.shiftKey && !event.altKey && !event.ctrlKey && !event.metaKey
  else if action = "Alt+Enter" then
    event.altKey && !event.shiftKey && !event.ctrlKey && !event.metaKey
  else if action = "Ctrl+Enter" then
    event.ctrlKey && !event.shiftKey && !event.altKey && !event.metaKey
  else false

/-- `createFakeEvent(targetAction, target)`: an Enter keydown with all
modifiers false, then the one modifier named by the target action set true.
(The `isFakeKeySwapEvent` marker property is never read anywhere, so it is
not modelled.) -/
def createFakeEvent (targetAction : String) : KeyEvent :=
  let base : KeyEvent :=
    { key := "Enter", shiftKey := false, altKey := false, ctrlKey := false, metaKey := false }
  if targetAction = "Shift+Enter" then { base with shiftKey := true }
  else if targetAction = "Alt+Enter" then { base with altKey := true }
  else if targetAction = "Ctrl+Enter" then { base with ctrlKey := true }
  else base

/-- The keydown handler closure built by `attachKeyHandler`, as a function of
the live settings cache, the fake-event guard flag, the DOM environment and
the event.  Control flow follows the source line by line: non-Enter keys
return, the guard flag returns, the newline classification runs before the
send classification, `newlineAction = Shift+Enter` and `sendAction = Enter`
pass through, the newline conversion suppresses and schedules a synthetic
Shift+Enter dispatch while raising the guard flag, and the send conversion
suppresses and clicks the send button when it is found and enabled, then
returns (dispatching nothing). -/
def keyHandler (s : Settings) (isProcessingFakeEvent : Bool) (env : DomEnv)
    (event : KeyEvent) : HandlerOutcome :=
  if event.key ≠ "Enter" then .pass
  else if isProcessingFakeEvent then .pass
  else if isKeyMatch event s.newlineAction then
    if s.newlineAction = "Shift+Enter" then .pass
    else
      { prevented := true, stoppedImmediate := true, clickedSend := false,
        dispatchedFake := some (createFakeEvent "Shift+Enter"), raisedGuard := true }
  else if isKeyMatch event s.sendAction then
    if s.sendAction = "Enter" then .pass
    else
      { prevented := true, stoppedImmediate := true,
        clickedSend := sendButtonClickable env,
        dispatchedFake := none, raisedGuard := false }
  else .pass

/-- The newline-classification branch of the handler in isolation (source
lines: the `isKeyMatch(event, currentSettings.newlineAction)` branch plus the
trailing `shouldPreventDefault && targetAction` block). -/
def newlineClassification (s : Settings) (event : KeyEvent) : HandlerOutcome :=
  if isKeyMatch event s.newlineAction then
    if s.newlineAction = "Shift+Enter" then .pass
    else
      { prevented := true, stoppedImmediate := true, clickedSend := false,
        dispatchedFake := some (createFakeEvent "Shift+Enter"), raisedGuard := true }
  else .pass

end KeySwap

namespace KeySwapB

/-- `isKeyMatch` of the legacy script: identical switch but with no
`Ctrl+Enter` case (that action name falls through to `default: false`). -/
def isKeyMatch (event : KeyEvent) (action : String) : Bool :=
  if event.key ≠ "Enter" then false
  else if action = "Enter" then
    !event.shiftKey && !event.altKey && !event.ctrlKey && !event.metaKey
  else if action = "Shift+Enter" then
    event.shiftKey && !event.altKey && !event.ctrlKey && !event.metaKey
  else if action = "Alt+Enter" then
    event.altKey && !event.shiftKey && !event.ctrlKey && !event.metaKey
  else false

/-- `createFakeEvent` of the legacy script (no Ctrl+Enter case, no marker
property). -/
def createFakeEvent (targetAction : String) : KeyEvent :=
  let base : KeyEvent :=
    { key := "Enter", shiftKey := false, altKey := false, ctrlKey := false, metaKey := false }
  if targetAction = "Shift+Enter" then { base with shiftKey := true }
  else if targetAction = "Alt+Enter" then { base with altKey := true }
  else base

/-- The keydown handler closure of the legacy script.  It first computes
`targetAction` (newline classification before send classification), then, if
a conversion is needed, suppresses the event; a send conversion
(`targetAction = Enter`) clicks the send button when found and enabled and
returns, and every other case (newline conversion, or send with no usable
button) schedules a synthetic dispatch of `createFakeEvent targetAction`. -/
def keyHandler (s : Settings) (env : DomEnv) (event : KeyEvent) : HandlerOutcome :=
  if event.key ≠ "Enter" then .pass
  else
    let targetAction : Option String :=
      if isKeyMatch event s.newlineAction then
        if s.newlineAction = "Enter" then some "Shift+Enter" else none
      else if isKeyMatch event s.sendAction then
        if s.sendAction ≠ "Enter" then some "Enter" else none
      else none
    match targetAction with
    | none => .pass
    | some ta =>
      if ta = "Enter" && sendButtonClickable env then
        { prevented := true, stoppedImmediate := true, clickedSend := true,
          dispatchedFake := none, raisedGuard := false }
      else
        { prevented := true, stoppedImmediate := true, clickedSend := false,
          dispatchedFake := some (createFakeEvent ta), raisedGuard := false }

/-- The newline-classification branch of the legacy handler in isolation:
only `newlineAction = Enter` triggers a conversion (to a synthetic
Shift+Enter); any other newline match passes through. -/
def newlineClassification (s : Settings) (event : KeyEvent) : HandlerOutcome :=
  if isKeyMatch event s.newlineAction && s.newlineAction = "Enter" then
    { prevented := true, stoppedImmediate := true, clickedSend := false,
      dispatchedFake := some (createFakeEvent "Shift+Enter"), raisedGuard := false }
  else .pass

end KeySwapB

/-- The canonical ordered chord list of the specification (and of the
popup's `availableOptions`). -/
def chordActions : List String :=
  ["Enter", "Shift+Enter", "Alt+Enter", "Ctrl+Enter"]

/-- The modifier bitset (shift, alt, ctrl, meta) of a keyboard event. -/
def eventModifiers (e : KeyEvent) : Bool × Bool × Bool × Bool :=
  (e.shiftKey, e.altKey, e.ctrlKey, e.metaKey)

/-- Modelled from the spec's words, for comparison with `isKeyMatch`: the
modifier bitset implied by a chord name — the named modifier true, every
other modifier (including meta) false.  Chord names outside the canonical
list get an arbitrary sentinel value. -/
def specChordModifiers (a : String) : Bool × Bool × Bool × Bool :=
  if a = "Enter" then (false, false, false, false)
  else if a = "Shift+Enter" then (true, false, false, false)
  else if a = "Alt+Enter" then (false, true, false, false)
  else if a = "Ctrl+Enter" then (false, false, true, false)
  else (true, true, true, true)

namespace EnterFix

/-- The synthetic Shift+Enter keydown built in `content.js`.  The
`KeyboardEvent` constructor defaults unspecified modifier flags to false, so
only `shiftKey` is true. -/
def fakeShiftEnterEvent : KeyEvent :=
  { key := "Enter", shiftKey := true, altKey := false, ctrlKey := false, metaKey := false }

/-- Side effects of one invocation of the `content.js` keydown listener. -/
structure Outcome where
  prevented : Bool
  stoppedImmediate : Bool
  dispatched : Option KeyEvent
deriving DecidableEq, Repr

/-- The keydown listener installed by `attachEnterKeyHandler` in
`content.js`: when the event is an Enter press with neither Shift nor Alt
held, it suppresses the event and dispatches a synthetic Shift+Enter on the
same target; otherwise it does nothing. -/
def enterKeyListener (e : KeyEvent) : Outcome :=
  if e.key = "Enter" && !e.shiftKey && !e.altKey then
    { prevented := true, stoppedImmediate := true, dispatched := some fakeShiftEnterEvent }
  else
    { prevented := false, stoppedImmediate := false, dispatched := none }

end EnterFix

namespace Popup

/-- The two `<select>` controls of the popup, by element id. -/
inductive SelectId
| sendAction
| newlineAction
deriving DecidableEq, Repr

/-- The popup's mutable state: the current values of the two selects. -/
structure PopupState where
  sendValue : String
  newlineValue : String
deriving DecidableEq, Repr

/-- `availableOptions` of `handleDuplicateKeys`. -/
def availableOptions : List String :=
  ["Enter", "Shift+Enter", "Alt+Enter", "Ctrl+Enter"]

/-- Reading `select.value`. -/
def getValue (st : PopupState) : SelectId → String
  | .sendAction => st.sendValue
  | .newlineAction => st.newlineValue

/-- Writing `select.value`. -/
def setValue (st : PopupState) : SelectId → String → PopupState
  | .sendAction, v => { st with sendValue := v }
  | .newlineAction, v => { st with newlineValue := v }

/-- `changedSelect === 'send-action' ? newlineSelect : sendSelect`. -/
def otherSelect : SelectId → SelectId
  | .sendAction => .newlineAction
  | .newlineAction => .sendAction

/-- `handleDuplicateKeys(changedSelect, newValue)`: if the other select holds
the newly chosen value, reassign it to the first entry of
`availableOptions` not contained in `[sendSelect.value, newlineSelect.value]`
(when such an entry exists). -/
def handleDuplicateKeys (st : PopupState) (changedSelect : SelectId)
    (newValue : String) : PopupState :=
  let other := otherSelect changedSelect
  if getValue st other = newValue then
    let currentValues := [st.sendValue, st.newlineValue]
    match availableOptions.find? (fun option => !currentValues.contains option) with
    | some unusedOption => setValue st other unusedOption
    | none => st
  else st

/-- `handleSettingChange(event)`: the DOM has already stored the newly chosen
value into the changed select when the change event fires; the handler then
runs the duplicate resolution and persists both select values as the new
settings (which are also the settings broadcast to every tab). -/
def handleSettingChange (st : PopupState) (changedSelect : SelectId)
    (newValue : String) : PopupState × Settings :=
  let st1 := setValue st changedSelect newValue
  let st2 := handleDuplicateKeys st1 changedSelect newValue
  (st2, { sendAction := st2.sendValue, newlineAction := st2.newlineValue })

end Popup

namespace Background

/-- The `chrome.storage.sync` contents relevant to the extension: the two
keys, each present with a string value or absent. -/
structure Store where
  sendAction : Option String
  newlineAction : Option String
deriving DecidableEq, Repr

/-- `chrome.storage.sync.get(defaults)`: every requested key is returned,
with the stored value when one exists and the provided default otherwise. -/
def storageSyncGet (store : Store) (defaults : Settings) : Settings :=
  { sendAction := store.sendAction.getD defaults.sendAction,
    newlineAction := store.newlineAction.getD defaults.newlineAction }

/-- JavaScript truthiness of a string: every string except `""` is truthy. -/
def truthyString (s : String) : Bool := s ≠ ""

/-- Result of the `onInstalled` listener: the store afterwards, and whether
`chrome.storage.sync.set(DEFAULT_SETTINGS)` was invoked. -/
structure InstalledResult where
  store : Store
  wroteDefaults : Bool
deriving DecidableEq, Repr

/-- The `chrome.runtime.onInstalled` listener of `background.js`: on
`install` or `update` it reads the store through
`chrome.storage.sync.get(DEFAULT_SETTINGS)` and writes `DEFAULT_SETTINGS`
only when one of the two returned fields is falsy. -/
def onInstalled (reason : String) (store : Store) : InstalledResult :=
  if reason = "install" || reason = "update" then
    let existingSettings := storageSyncGet store DEFAULT_SETTINGS
    if !truthyString existingSettings.sendAction
        || !truthyString existingSettings.newlineAction then
      { store := { sendAction := some DEFAULT_SETTINGS.sendAction,
                   newlineAction := some DEFAULT_SETTINGS.newlineAction },
        wroteDefaults := true }
    else
      { store := store, wroteDefaults := false }
  else
    { store := store, wroteDefaults := false }

end Background

namespace KeySwap

/-- `loadSettings()` of the guard-flag script: a successful
`chrome.storage.sync.get(DEFAULT_SETTINGS)` becomes the settings cache; a
thrown error leaves the cache at the built-in defaults. -/
def loadSettings (readResult : Except Unit Background.Store) : Settings :=
  match readResult with
  | .ok store => Background.storageSyncGet store DEFAULT_SETTINGS
  | .error _ => DEFAULT_SETTINGS

end KeySwap

/-- Handler-related state of one `.ProseMirror` editor element: the ids of
keydown listeners currently registered on it (each `attachKeyHandler` call
creates a distinct closure, modelled by a fresh id), the `keySwapHandler`
expando property, and the `dataset.keySwapAttached` string. -/
structure EditorState where
  listeners : List Nat
  keySwapHandler : Option Nat
  keySwapAttached : Option String
deriving DecidableEq, Repr

/-- `addEventListener`: registering an already-registered listener is a
no-op; otherwise the listener is appended. -/
def addListener (n : Nat) (l : List Nat) : List Nat :=
  if n ∈ l then l else l ++ [n]

namespace KeySwap

/-- `removeExistingHandler(proseEditor)` of the guard-flag script: when the
`keySwapHandler` property is set, `removeEventListener` that listener and
delete the property; always reset `dataset.keySwapAttached` to `"false"`. -/
def removeExistingHandler (e : EditorState) : EditorState :=
  let e1 : EditorState :=
    match e.keySwapHandler with
    | some h => { e with listeners := e.listeners.erase h, keySwapHandler := none }
    | none => e
  { e1 with keySwapAttached := some "false" }

/-- `attachKeyHandler(proseEditor)` of the guard-flag script, with `n` the id
of the freshly created handler closure: remove any existing handler, store
the new closure in `keySwapHandler`, register it, and mark the element
attached. -/
def attachKeyHandler (n : Nat) (e : EditorState) : EditorState :=
  let e1 := removeExistingHandler e
  { e1 with keySwapHandler := some n,
            listeners := addListener n e1.listeners,
            keySwapAttached := some "true" }

/-- Per-document state of the guard-flag content script: the settings cache,
the fake-event guard flag, and every `.ProseMirror` editor currently present
in the document (in document order, as `querySelectorAll` returns them). -/
structure ContentState where
  currentSettings : Settings
  isProcessingFakeEvent : Bool
  editors : List EditorState
deriving DecidableEq, Repr

/-- The `proseEditors.forEach` body of the `SETTINGS_UPDATED` listener:
`removeExistingHandler` then `attachKeyHandler` on every editor, each
iteration creating a fresh handler closure (ids `fresh`, `fresh+1`, …). -/
def reattachAll (fresh : Nat) : List EditorState → List EditorState
  | [] => []
  | e :: rest => attachKeyHandler fresh (removeExistingHandler e) :: reattachAll (fresh + 1) rest

/-- The `chrome.runtime.onMessage` listener of the guard-flag script on a
`SETTINGS_UPDATED` message: overwrite the settings cache with the message
settings, reset the guard flag, and re-attach a fresh handler to every
`.ProseMirror` element in the document. -/
def onSettingsUpdated (msgSettings : Settings) (fresh : Nat)
    (st : ContentState) : ContentState :=
  { currentSettings := msgSettings,
    isProcessingFakeEvent := false,
    editors := reattachAll fresh st.editors }

/-- The behaviour of every handler installed by this script: the closure
reads `currentSettings` and `isProcessingFakeEvent` from module scope at
event time (it does not capture a settings snapshot). -/
def ContentState.handlerBehavior (st : ContentState) (env : DomEnv)
    (event : KeyEvent) : HandlerOutcome :=
  keyHandler st.currentSettings st.isProcessingFakeEvent env event

end KeySwap

namespace KeySwapB

/-- `removeExistingHandler` of the legacy script: like the guard-flag
version but it does not touch `dataset.keySwapAttached`. -/
def removeExistingHandler (e : EditorState) : EditorState :=
  match e.keySwapHandler with
  | some h => { e with listeners := e.listeners.erase h, keySwapHandler := none }
  | none => e

/-- `attachKeyHandler` of the legacy script, with `n` the id of the fresh
handler closure. -/
def attachKeyHandler (n : Nat) (e : EditorState) : EditorState :=
  let e1 := removeExistingHandler e
  { e1 with keySwapHandler := some n,
            listeners := addListener n e1.listeners,
            keySwapAttached := some "true" }

/-- Per-document state of the legacy content script. -/
structure ContentState where
  currentSettings : Settings
  editors : List EditorState
deriving DecidableEq, Repr

/-- `tryAttachHandler()` of the legacy script: `document.querySelector`
returns only the first `.ProseMirror` element, and the handler is attached
only when `dataset.keySwapAttached` is falsy (unset or empty — note the
string `"false"` is truthy). -/
def tryAttachHandler (fresh : Nat) (st : ContentState) : ContentState :=
  match st.editors with
  | [] => st
  | e :: rest =>
    if Background.truthyString (e.keySwapAttached.getD "") then st
    else { st with editors := attachKeyHandler fresh e :: rest }

/-- The `chrome.runtime.onMessage` listener of the legacy script on a
`SETTINGS_UPDATED` message: overwrite the settings cache, then re-attach a
fresh handler to the first `.ProseMirror` element only (after forcing its
`dataset.keySwapAttached` to `"false"`); every other editor is untouched. -/
def onSettingsUpdated (msgSettings : Settings) (fresh : Nat)
    (st : ContentState) : ContentState :=
  { currentSettings := msgSettings,
    editors :=
      match st.editors with
      | [] => []
      | e :: rest =>
        attachKeyHandler fresh { e with keySwapAttached := some "false" } :: rest }

end KeySwapB

/-! ## Helper lemmas -/

/-- With Meta held, no action name matches (every switch case requires
`!event.metaKey`). -/
lemma KeySwap.isKeyMatch_meta (e : KeyEvent) (a : String) (h : e.metaKey = true) :
    KeySwap.isKeyMatch e a = false := by
  unfold KeySwap.isKeyMatch
  split_ifs <;> simp [h]

/-- With Meta held, the guard-flag handler has no side effect. -/
lemma KeySwap.keyHandler_meta (s : Settings) (env : DomEnv) (e : KeyEvent)
    (h : e.metaKey = true) :
    KeySwap.keyHandler s false env e = HandlerOutcome.pass := by
  unfold KeySwap.keyHandler
  simp [KeySwap.isKeyMatch_meta _ _ h]

/-- A successful match forces the event key to be the literal Enter. -/
lemma KeySwap.isKeyMatch_key (e : KeyEvent) (a : String)
    (h : KeySwap.isKeyMatch e a = true) : e.key = "Enter" := by
  by_contra hk
  simp [KeySwap.isKeyMatch, hk] at h

/-- A successful match in the legacy script forces the event key to be the
literal Enter. -/
lemma KeySwapB.isKeyMatch_key_legacy (e : KeyEvent) (a : String)
    (h : KeySwapB.isKeyMatch e a = true) : e.key = "Enter" := by
  by_contra hk
  simp [KeySwapB.isKeyMatch, hk] at h

/-! ## Claims -/

/-- C1: for every keyboard event and every chord in
{Enter, Shift+Enter, Alt+Enter, Ctrl+Enter}, `isKeyMatch` holds iff the
event's key is Enter and its (shift, alt, ctrl, meta) bitset exactly equals
the bitset implied by the chord name; in particular an Enter press with Meta
held matches no chord and the handler passes it through unmodified. -/
theorem c1_chord_classification (e : KeyEvent) (a : String) (ha : a ∈ chordActions)
    (s : Settings) (env : DomEnv) :
    KeySwap.isKeyMatch e a =
      (decide (e.key = "Enter") && decide (eventModifiers e = specChordModifiers a)) ∧
    (e.metaKey = true →
      KeySwap.isKeyMatch e a = false ∧
      KeySwap.keyHandler s false env e = HandlerOutcome.pass) := by
  constructor
  · obtain ⟨k, sh, al, ct, me⟩ := e
    simp only [chordActions, List.mem_cons, List.mem_singleton, List.not_mem_nil, or_false] at ha
    by_cases hk : k = "Enter"
    · subst hk
      rcases ha with rfl | rfl | rfl | rfl <;>
        cases sh <;> cases al <;> cases ct <;> cases me <;> rfl
    · rcases ha with rfl | rfl | rfl | rfl <;>
        simp [KeySwap.isKeyMatch, eventModifiers, specChordModifiers, hk]
  · intro hm
    exact ⟨KeySwap.isKeyMatch_meta e a hm, KeySwap.keyHandler_meta s env e hm⟩

/-- C1 witness: a Meta+Enter press matches no chord and is passed through. -/
theorem c1_chord_classification_witness :
    KeySwap.isKeyMatch ⟨"Enter", false, false, false, true⟩ "Enter" = false ∧
    KeySwap.keyHandler DEFAULT_SETTINGS false ⟨none, none, none⟩
      ⟨"Enter", false, false, false, true⟩ = HandlerOutcome.pass :=
  (c1_chord_classification ⟨"Enter", false, false, false, true⟩ "Enter"
    (by decide) DEFAULT_SETTINGS ⟨none, none, none⟩).2 rfl

/-- C2: with the native mapping (sendAction = Enter, newlineAction =
Shift+Enter) both installed handlers are fully transparent: no suppression,
no click, no synthetic dispatch, for every keyboard event, every guard-flag
state and every DOM environment. -/
theorem c2_native_settings_transparent (g : Bool) (env : DomEnv) (e : KeyEvent) :
    KeySwap.keyHandler DEFAULT_SETTINGS g env e = HandlerOutcome.pass ∧
    KeySwapB.keyHandler DEFAULT_SETTINGS env e = HandlerOutcome.pass := by
  obtain ⟨k, sh, al, ct, me⟩ := e
  by_cases hk : k = "Enter"
  · subst hk
    cases g <;> cases sh <;> cases al <;> cases ct <;> cases me <;> exact ⟨rfl, rfl⟩
  · constructor <;> simp [KeySwap.keyHandler, KeySwapB.keyHandler, hk]

/-- C4: while the fake-event guard flag is set, the guard-flag handler
returns with no side effect on every event (so the synthetic event the
handler itself dispatches is never intercepted again); moreover every
handler invocation that schedules a synthetic dispatch also raises the
guard flag. -/
theorem c4_guard_flag (s : Settings) (env : DomEnv) (e : KeyEvent) :
    KeySwap.keyHandler s true env e = HandlerOutcome.pass ∧
    ((KeySwap.keyHandler s false env e).dispatchedFake.isSome = true →
      (KeySwap.keyHandler s false env e).raisedGuard = true) := by
  constructor
  · by_cases hk : e.key = "Enter" <;> simp [KeySwap.keyHandler, hk]
  · unfold KeySwap.keyHandler
    split_ifs <;> simp [HandlerOutcome.pass]

/-- C4 witness: with newlineAction = Enter, a plain Enter press schedules a
synthetic dispatch and raises the guard flag, and the very synthetic event
it dispatches is ignored while the flag is set. -/
theorem c4_guard_flag_witness :
    (KeySwap.keyHandler ⟨"Alt+Enter", "Enter"⟩ false ⟨none, none, none⟩
        ⟨"Enter", false, false, false, false⟩).raisedGuard = true ∧
    KeySwap.keyHandler ⟨"Alt+Enter", "Enter"⟩ true ⟨none, none, none⟩
        (KeySwap.createFakeEvent "Shift+Enter") = HandlerOutcome.pass :=
  ⟨(c4_guard_flag ⟨"Alt+Enter", "Enter"⟩ ⟨none, none, none⟩
      ⟨"Enter", false, false, false, false⟩).2 (by decide),
   (c4_guard_flag ⟨"Alt+Enter", "Enter"⟩ ⟨none, none, none⟩
      (KeySwap.createFakeEvent "Shift+Enter")).1⟩

/-- C9: when the settings-store read throws, `loadSettings` leaves the
settings cache at the built-in defaults, and every subsequent keystroke is
handled exactly as after a successful read of an empty store (which yields
the same defaults). -/
theorem c9_load_failure_defaults (g : Bool) (env : DomEnv) (e : KeyEvent) :
    KeySwap.loadSettings (Except.error ()) = DEFAULT_SETTINGS ∧
    KeySwap.keyHandler (KeySwap.loadSettings (Except.error ())) g env e =
      KeySwap.keyHandler (KeySwap.loadSettings (Except.ok ⟨none, none⟩)) g env e :=
  ⟨rfl, rfl⟩

/-- C10: the `content.js` handler acts exactly on Enter presses with neither
Shift nor Alt held; the synthetic event it dispatches carries
shiftKey = true and therefore produces no action (and no further dispatch)
when it re-enters the same handler, so each real plain-Enter press leads to
exactly one synthetic dispatch and no loop. -/
theorem c10_enterfix_no_loop (e : KeyEvent)
    (h : e.key = "Enter" ∧ e.shiftKey = false ∧ e.altKey = false) :
    EnterFix.enterKeyListener e =
      ⟨true, true, some EnterFix.fakeShiftEnterEvent⟩ ∧
    EnterFix.fakeShiftEnterEvent.shiftKey = true ∧
    EnterFix.enterKeyListener EnterFix.fakeShiftEnterEvent = ⟨false, false, none⟩ := by
  obtain ⟨h1, h2, h3⟩ := h
  refine ⟨?_, rfl, rfl⟩
  simp [EnterFix.enterKeyListener, h1, h2, h3]

/-- C10 witness: a plain Enter press is suppressed and converted into one
synthetic Shift+Enter, which the handler then ignores. -/
theorem c10_enterfix_no_loop_witness :
    EnterFix.enterKeyListener ⟨"Enter", false, false, false, false⟩ =
      ⟨true, true, some EnterFix.fakeShiftEnterEvent⟩ ∧
    EnterFix.fakeShiftEnterEvent.shiftKey = true ∧
    EnterFix.enterKeyListener EnterFix.fakeShiftEnterEvent = ⟨false, false, none⟩ :=
  c10_enterfix_no_loop ⟨"Enter", false, false, false, false⟩ (by decide)

/-- The newline classification never clicks the send button. -/
lemma KeySwap.newlineClassification_clickedSend (s : Settings) (e : KeyEvent) :
    (KeySwap.newlineClassification s e).clickedSend = false := by
  unfold KeySwap.newlineClassification
  split_ifs <;> rfl

/-- The legacy newline classification never clicks the send button. -/
lemma KeySwapB.newlineClassification_clickedSend_legacy (s : Settings) (e : KeyEvent) :
    (KeySwapB.newlineClassification s e).clickedSend = false := by
  unfold KeySwapB.newlineClassification
  split_ifs <;> rfl

/-- When both preferences name the same chord, the guard-flag handler
reduces to its newline classification. -/
lemma KeySwap.keyHandler_same_actions (s : Settings) (env : DomEnv) (e : KeyEvent)
    (h : s.sendAction = s.newlineAction) :
    KeySwap.keyHandler s false env e =
      (if e.key = "Enter" then KeySwap.newlineClassification s e
       else HandlerOutcome.pass) := by
  unfold KeySwap.keyHandler KeySwap.newlineClassification
  by_cases hk : e.key = "Enter"
  · by_cases hm : KeySwap.isKeyMatch e s.newlineAction = true
    · simp [hk, hm]
    · have hm' : KeySwap.isKeyMatch e s.newlineAction = false := by
        simpa using hm
      have hms : KeySwap.isKeyMatch e s.sendAction = false := by
        rw [h]; exact hm'
      simp [hk, hm', hms]
  · simp [hk]

/-- When both preferences name the same chord, the legacy handler reduces to
its newline classification. -/
lemma KeySwapB.keyHandler_same_actions_legacy (s : Settings) (env : DomEnv) (e : KeyEvent)
    (h : s.sendAction = s.newlineAction) :
    KeySwapB.keyHandler s env e =
      (if e.key = "Enter" then KeySwapB.newlineClassification s e
       else HandlerOutcome.pass) := by
  unfold KeySwapB.keyHandler KeySwapB.newlineClassification
  by_cases hk : e.key = "Enter"
  · by_cases hm : KeySwapB.isKeyMatch e s.newlineAction = true
    · by_cases hne : s.newlineAction = "Enter"
      · rw [hne] at hm
        simp [hk, hne, hm]
      · simp [hk, hm, hne]
    · have hm' : KeySwapB.isKeyMatch e s.newlineAction = false := by
        simpa using hm
      have hms : KeySwapB.isKeyMatch e s.sendAction = false := by
        rw [h]; exact hm'
      simp [hk, hm', hms]
  · simp [hk]

/-- C8: if the user somehow configures sendAction = newlineAction, the
newline classification wins in both scripts: the handler behaves exactly as
its newline branch alone and the send classification's effect (clicking the
send button) never occurs, on every event and in every DOM environment. -/
theorem c8_newline_tiebreak (s : Settings) (env : DomEnv) (e : KeyEvent)
    (h : s.sendAction = s.newlineAction) :
    KeySwap.keyHandler s false env e =
      (if e.key = "Enter" then KeySwap.newlineClassification s e
       else HandlerOutcome.pass) ∧
    (KeySwap.keyHandler s false env e).clickedSend = false ∧
    KeySwapB.keyHandler s env e =
      (if e.key = "Enter" then KeySwapB.newlineClassification s e
       else HandlerOutcome.pass) ∧
    (KeySwapB.keyHandler s env e).clickedSend = false := by
  refine ⟨KeySwap.keyHandler_same_actions s env e h, ?_,
          KeySwapB.keyHandler_same_actions_legacy s env e h, ?_⟩
  · rw [KeySwap.keyHandler_same_actions s env e h]
    split_ifs
    · exact KeySwap.newlineClassification_clickedSend s e
    · rfl
  · rw [KeySwapB.keyHandler_same_actions_legacy s env e h]
    split_ifs
    · exact KeySwapB.newlineClassification_clickedSend_legacy s e
    · rfl

/-- C8 witness: both preferences set to Enter, plain Enter pressed, a
clickable send button present — still no click, and the outcome is the
newline conversion. -/
theorem c8_newline_tiebreak_witness :
    KeySwap.keyHandler ⟨"Enter", "Enter"⟩ false ⟨some ⟨false⟩, none, none⟩
        ⟨"Enter", false, false, false, false⟩ =
      KeySwap.newlineClassification ⟨"Enter", "Enter"⟩
        ⟨"Enter", false, false, false, false⟩ ∧
    (KeySwap.keyHandler ⟨"Enter", "Enter"⟩ false ⟨some ⟨false⟩, none, none⟩
        ⟨"Enter", false, false, false, false⟩).clickedSend = false ∧
    (KeySwapB.keyHandler ⟨"Enter", "Enter"⟩ ⟨some ⟨false⟩, none, none⟩
        ⟨"Enter", false, false, false, false⟩).clickedSend = false := by
  obtain ⟨h1, h2, h3, h4⟩ :=
    c8_newline_tiebreak ⟨"Enter", "Enter"⟩ ⟨some ⟨false⟩, none, none⟩
      ⟨"Enter", false, false, false, false⟩ rfl
  exact ⟨by simpa using h1, h2, h4⟩

/-- C3 counterexample: in the guard-flag script, with sendAction =
Alt+Enter and no send button in the DOM, an Alt+Enter press is suppressed
but nothing is clicked and no synthetic event is dispatched — the claimed
fallback to a synthetic plain-Enter dispatch does not happen there. -/
theorem c3_counterexample :
    KeySwap.keyHandler ⟨"Alt+Enter", "Shift+Enter"⟩ false ⟨none, none, none⟩
        ⟨"Enter", false, true, false, false⟩ =
      { prevented := true, stoppedImmediate := true, clickedSend := false,
        dispatchedFake := none, raisedGuard := false } := by
  rfl

/-- C3 (amended): on an event matching a configured sendAction other than
plain Enter (and not matching the newline action), the guard-flag handler
suppresses the event and clicks the send button located by the prioritized
selector list when it is found and enabled, but when no usable button
exists it does nothing further (no synthetic fallback); in the legacy
script (whose matcher also has to recognise the chord — it has no
Ctrl+Enter case) the same conversion instead falls back to dispatching a
synthetic plain-Enter event on the same target when no usable button
exists. -/
theorem c3_send_conversion (s : Settings) (env : DomEnv) (e : KeyEvent)
    (hn : KeySwap.isKeyMatch e s.newlineAction = false)
    (hs : KeySwap.isKeyMatch e s.sendAction = true)
    (hse : s.sendAction ≠ "Enter") :
    KeySwap.keyHandler s false env e =
      { prevented := true, stoppedImmediate := true,
        clickedSend := sendButtonClickable env,
        dispatchedFake := none, raisedGuard := false } ∧
    (KeySwapB.isKeyMatch e s.newlineAction = false →
      KeySwapB.isKeyMatch e s.sendAction = true →
      KeySwapB.keyHandler s env e =
        (if sendButtonClickable env then
          { prevented := true, stoppedImmediate := true, clickedSend := true,
            dispatchedFake := none, raisedGuard := false }
         else
          { prevented := true, stoppedImmediate := true, clickedSend := false,
            dispatchedFake := some (KeySwapB.createFakeEvent "Enter"),
            raisedGuard := false })) := by
  have hk : e.key = "Enter" := KeySwap.isKeyMatch_key e s.sendAction hs
  constructor
  · simp [KeySwap.keyHandler, hk, hn, hs, hse]
  · intro hnB hsB
    by_cases hb : sendButtonClickable env = true <;>
      simp [KeySwapB.keyHandler, hk, hnB, hsB, hse, hb]

/-- C3 witness: with sendAction = Alt+Enter, an enabled send button found
by the first selector and Alt+Enter pressed, both handlers suppress and
click with no synthetic dispatch; and with sendAction = Ctrl+Enter (a chord
only the guard-flag matcher recognises), no button anywhere in the DOM and
Ctrl+Enter pressed, the guard-flag handler suppresses, clicks nothing and
dispatches nothing. -/
theorem c3_send_conversion_witness :
    KeySwap.keyHandler ⟨"Alt+Enter", "Shift+Enter"⟩ false
        ⟨some ⟨false⟩, none, none⟩ ⟨"Enter", false, true, false, false⟩ =
      { prevented := true, stoppedImmediate := true, clickedSend := true,
        dispatchedFake := none, raisedGuard := false } ∧
    KeySwapB.keyHandler ⟨"Alt+Enter", "Shift+Enter"⟩
        ⟨some ⟨false⟩, none, none⟩ ⟨"Enter", false, true, false, false⟩ =
      { prevented := true, stoppedImmediate := true, clickedSend := true,
        dispatchedFake := none, raisedGuard := false } ∧
    KeySwap.keyHandler ⟨"Ctrl+Enter", "Shift+Enter"⟩ false
        ⟨none, none, none⟩ ⟨"Enter", false, false, true, false⟩ =
      { prevented := true, stoppedImmediate := true, clickedSend := false,
        dispatchedFake := none, raisedGuard := false } := by
  obtain ⟨h1, h2⟩ :=
    c3_send_conversion ⟨"Alt+Enter", "Shift+Enter"⟩ ⟨some ⟨false⟩, none, none⟩
      ⟨"Enter", false, true, false, false⟩ (by decide) (by decide) (by decide)
  obtain ⟨h3, _⟩ :=
    c3_send_conversion ⟨"Ctrl+Enter", "Shift+Enter"⟩ ⟨none, none, none⟩
      ⟨"Enter", false, false, true, false⟩ (by decide) (by decide) (by decide)
  exact ⟨by simpa using h1, by simpa using h2 (by decide) (by decide),
    by simpa using h3⟩

/-- Removing and re-attaching on an editor whose registered listeners are
exactly its tracked handler leaves exactly the fresh listener registered,
tracked and marked attached. -/
lemma KeySwap.attach_after_remove (n : Nat) (e : EditorState)
    (h : e.listeners = e.keySwapHandler.toList) :
    KeySwap.attachKeyHandler n (KeySwap.removeExistingHandler e) =
      { listeners := [n], keySwapHandler := some n, keySwapAttached := some "true" } := by
  obtain ⟨ls, hd, att⟩ := e
  cases hd with
  | none =>
    simp only [Option.toList] at h
    subst h
    simp [KeySwap.attachKeyHandler, KeySwap.removeExistingHandler, addListener]
  | some m =>
    simp only [Option.toList] at h
    subst h
    simp [KeySwap.attachKeyHandler, KeySwap.removeExistingHandler, addListener,
      List.erase_cons]

/-- The forEach of the guard-flag `SETTINGS_UPDATED` listener: length is
preserved, every resulting editor carries exactly one registered listener,
that listener is the tracked one, and all listener ids are fresh. -/
lemma KeySwap.reattachAll_spec (fresh : Nat) (l : List EditorState)
    (hInv : ∀ e ∈ l, e.listeners = e.keySwapHandler.toList) :
    (KeySwap.reattachAll fresh l).length = l.length ∧
    ∀ e' ∈ KeySwap.reattachAll fresh l,
      e'.listeners.length = 1 ∧ e'.listeners = e'.keySwapHandler.toList ∧
      ∀ i ∈ e'.listeners, fresh ≤ i := by
  induction l generalizing fresh with
  | nil => simp [KeySwap.reattachAll]
  | cons e rest ih =>
    have he := hInv e (List.mem_cons_self e rest)
    have hrest : ∀ x ∈ rest, x.listeners = x.keySwapHandler.toList :=
      fun x hx => hInv x (List.mem_cons_of_mem e hx)
    obtain ⟨ihLen, ihAll⟩ := ih (fresh + 1) hrest
    constructor
    · simpa [KeySwap.reattachAll] using ihLen
    · intro e' he'
      rw [KeySwap.reattachAll] at he'
      rcases List.mem_cons.mp he' with hhd | htl
      · subst hhd
        rw [KeySwap.attach_after_remove fresh e he]
        refine ⟨rfl, rfl, ?_⟩
        intro i hi
        rcases List.mem_singleton.mp hi with rfl
        exact Nat.le_refl i
      · obtain ⟨h1, h2, h3⟩ := ihAll e' htl
        exact ⟨h1, h2, fun i hi => Nat.le_of_succ_le (h3 i hi)⟩

/-- C6 (amended): in the guard-flag script, processing a SETTINGS_UPDATED
message overwrites the settings cache with the message settings (so every
installed handler — which reads the cache live — thereafter behaves
according to the new settings), and re-attaches every `.ProseMirror`
element currently in the document so that each carries exactly one
registered keydown listener, namely the freshly created one; no previously
registered listener survives.  (In the legacy script, only the first editor
in the document is re-attached; see the counterexample.) -/
theorem c6_settings_updated_reattach (msgSettings : Settings) (fresh : Nat)
    (st : KeySwap.ContentState)
    (hInv : ∀ e ∈ st.editors, e.listeners = e.keySwapHandler.toList) :
    (KeySwap.onSettingsUpdated msgSettings fresh st).currentSettings = msgSettings ∧
    (∀ env event,
      (KeySwap.onSettingsUpdated msgSettings fresh st).handlerBehavior env event =
        KeySwap.keyHandler msgSettings false env event) ∧
    (KeySwap.onSettingsUpdated msgSettings fresh st).editors.length =
      st.editors.length ∧
    ∀ e' ∈ (KeySwap.onSettingsUpdated msgSettings fresh st).editors,
      e'.listeners.length = 1 ∧ e'.listeners = e'.keySwapHandler.toList ∧
      ∀ i ∈ e'.listeners, fresh ≤ i := by
  obtain ⟨hLen, hAll⟩ := KeySwap.reattachAll_spec fresh st.editors hInv
  exact ⟨rfl, fun env event => rfl, hLen, hAll⟩

/-- C6 witness: a document with one already-attached editor (listener id 0)
and one untouched editor; after the message with fresh ids from 7, both
editors carry exactly one fresh listener and the cache holds the message
settings. -/
theorem c6_settings_updated_reattach_witness :
    (KeySwap.onSettingsUpdated ⟨"Ctrl+Enter", "Shift+Enter"⟩ 7
        ⟨DEFAULT_SETTINGS, false,
         [⟨[0], some 0, some "true"⟩, ⟨[], none, none⟩]⟩).currentSettings =
      ⟨"Ctrl+Enter", "Shift+Enter"⟩ ∧
    (KeySwap.onSettingsUpdated ⟨"Ctrl+Enter", "Shift+Enter"⟩ 7
        ⟨DEFAULT_SETTINGS, false,
         [⟨[0], some 0, some "true"⟩, ⟨[], none, none⟩]⟩).editors.length = 2 ∧
    ∀ e' ∈ (KeySwap.onSettingsUpdated ⟨"Ctrl+Enter", "Shift+Enter"⟩ 7
        ⟨DEFAULT_SETTINGS, false,
         [⟨[0], some 0, some "true"⟩, ⟨[], none, none⟩]⟩).editors,
      e'.listeners.length = 1 ∧ ∀ i ∈ e'.listeners, 7 ≤ i := by
  obtain ⟨h1, _, h3, h4⟩ :=
    c6_settings_updated_reattach ⟨"Ctrl+Enter", "Shift+Enter"⟩ 7
      ⟨DEFAULT_SETTINGS, false, [⟨[0], some 0, some "true"⟩, ⟨[], none, none⟩]⟩
      (by decide)
  exact ⟨h1, h3, fun e' he' => ⟨(h4 e' he').1, (h4 e' he').2.2⟩⟩

/-- C6 counterexample: in the legacy script, with two editors present of
which only the first ever got a handler (its `tryAttachHandler` attaches
only to the first `querySelector` result), processing a SETTINGS_UPDATED
message leaves the second present editor with zero installed keydown
handlers — not exactly one. -/
theorem c6_counterexample :
    ((KeySwapB.onSettingsUpdated ⟨"Ctrl+Enter", "Shift+Enter"⟩ 1
        (KeySwapB.tryAttachHandler 0
          ⟨⟨"Alt+Enter", "Enter"⟩,
           [⟨[], none, none⟩, ⟨[], none, none⟩]⟩)).editors.length = 2) ∧
    ((KeySwapB.onSettingsUpdated ⟨"Ctrl+Enter", "Shift+Enter"⟩ 1
        (KeySwapB.tryAttachHandler 0
          ⟨⟨"Alt+Enter", "Enter"⟩,
           [⟨[], none, none⟩, ⟨[], none, none⟩]⟩)).editors.getD 1
        ⟨[], none, none⟩).listeners.length = 0 := by
  constructor <;> rfl

/-- C5: after any change event on either settings control, the two selects
hold different chords, and those are exactly the values persisted; when the
newly chosen chord collided with the other control's value, the other
control now holds the first chord of the canonical ordered list that
neither control was using (both held the new chord at resolution time,
so: the first list entry different from the new chord). -/
theorem c5_conflict_resolution (st : Popup.PopupState) (changed : Popup.SelectId)
    (newValue : String) :
    (Popup.handleSettingChange st changed newValue).2.sendAction ≠
      (Popup.handleSettingChange st changed newValue).2.newlineAction ∧
    (Popup.getValue st (Popup.otherSelect changed) = newValue →
      Popup.getValue (Popup.handleSettingChange st changed newValue).1
          (Popup.otherSelect changed) =
        (Popup.availableOptions.find? (fun o => decide (o ≠ newValue))).getD "") := by
  obtain ⟨sv, nv⟩ := st
  cases changed with
  | sendAction =>
    by_cases hc : nv = newValue
    · subst hc
      by_cases hE : nv = "Enter"
      · subst hE
        constructor
        · show ¬(_ = _)
          simp [Popup.handleSettingChange, Popup.handleDuplicateKeys,
            Popup.setValue, Popup.getValue, Popup.otherSelect,
            Popup.availableOptions, List.find?]
        · intro _
          simp [Popup.handleSettingChange, Popup.handleDuplicateKeys,
            Popup.setValue, Popup.getValue, Popup.otherSelect,
            Popup.availableOptions, List.find?]
      · have hE' : ¬("Enter" = nv) := fun h => hE h.symm
        constructor
        · simp [Popup.handleSettingChange, Popup.handleDuplicateKeys,
            Popup.setValue, Popup.getValue, Popup.otherSelect,
            Popup.availableOptions, List.find?, hE, hE']
        · intro _
          simp [Popup.handleSettingChange, Popup.handleDuplicateKeys,
            Popup.setValue, Popup.getValue, Popup.otherSelect,
            Popup.availableOptions, List.find?, hE, hE']
    · constructor
      · simp [Popup.handleSettingChange, Popup.handleDuplicateKeys,
          Popup.setValue, Popup.getValue, Popup.otherSelect, hc]
        exact fun h => hc h.symm
      · intro h
        exact absurd h hc
  | newlineAction =>
    by_cases hc : sv = newValue
    · subst hc
      by_cases hE : sv = "Enter"
      · subst hE
        constructor
        · show ¬(_ = _)
          simp [Popup.handleSettingChange, Popup.handleDuplicateKeys,
            Popup.setValue, Popup.getValue, Popup.otherSelect,
            Popup.availableOptions, List.find?]
        · intro _
          simp [Popup.handleSettingChange, Popup.handleDuplicateKeys,
            Popup.setValue, Popup.getValue, Popup.otherSelect,
            Popup.availableOptions, List.find?]
      · have hE' : ¬("Enter" = sv) := fun h => hE h.symm
        constructor
        · simp [Popup.handleSettingChange, Popup.handleDuplicateKeys,
            Popup.setValue, Popup.getValue, Popup.otherSelect,
            Popup.availableOptions, List.find?, hE, hE']
        · intro _
          simp [Popup.handleSettingChange, Popup.handleDuplicateKeys,
            Popup.setValue, Popup.getValue, Popup.otherSelect,
            Popup.availableOptions, List.find?, hE, hE']
    · constructor
      · simp [Popup.handleSettingChange, Popup.handleDuplicateKeys,
          Popup.setValue, Popup.getValue, Popup.otherSelect, hc]
      · intro h
        exact absurd h hc

/-- C5 witness: choosing Enter for the newline control while the send
control already holds Enter reassigns the send control to Shift+Enter, and
the persisted pair is distinct. -/
theorem c5_conflict_resolution_witness :
    (Popup.handleSettingChange ⟨"Enter", "Shift+Enter"⟩ Popup.SelectId.newlineAction
        "Enter").2.sendAction ≠
      (Popup.handleSettingChange ⟨"Enter", "Shift+Enter"⟩ Popup.SelectId.newlineAction
        "Enter").2.newlineAction ∧
    Popup.getValue
        (Popup.handleSettingChange ⟨"Enter", "Shift+Enter"⟩
          Popup.SelectId.newlineAction "Enter").1
        (Popup.otherSelect Popup.SelectId.newlineAction) =
      (Popup.availableOptions.find? (fun o => decide (o ≠ "Enter"))).getD "" :=
  ⟨(c5_conflict_resolution ⟨"Enter", "Shift+Enter"⟩ Popup.SelectId.newlineAction
      "Enter").1,
   (c5_conflict_resolution ⟨"Enter", "Shift+Enter"⟩ Popup.SelectId.newlineAction
      "Enter").2 rfl⟩

/-- C7 (code bug): on a fresh install with an empty store, the `onInstalled`
listener writes nothing — `chrome.storage.sync.get(DEFAULT_SETTINGS)`
substitutes the defaults for the missing keys, so the "no prior value"
check of the listener (and of its own comment, which says the defaults are
saved when no settings exist) never fires and the store stays empty. -/
theorem c7_fresh_install_writes_nothing :
    Background.onInstalled "install" ⟨none, none⟩ =
      ⟨⟨none, none⟩, false⟩ ∧
    Background.onInstalled "update" ⟨none, none⟩ =
      ⟨⟨none, none⟩, false⟩ := by
  constructor <;> rfl
